import Mathlib

/-!
Verification of the time-axis utility subsystem of the pysat repository
(`pysat.utils.time`, exercised by `pysat/tests/test_utils_time.py`) and of
the synthetic-data generator `generate_fake_data` from
`pysat/instruments/methods/testing.py`.

The `pysat.utils.time` module itself is not under `src/` (only its test file
is), so its five operations are modelled from the specification; the
definitions below that say "Modelled from the spec" follow the spec's words.
`generate_fake_data` is embedded directly from the source file.
-/

namespace PysatTime

/-- Error taxonomy of the spec: `InvalidDate`, `InvalidArgument`,
`InvalidInputType`. -/
inductive TimeError where
  | invalidDate
  | invalidArgument
  | invalidInputType
deriving DecidableEq, Repr

/-- Gregorian leap-year test on the calendar year. -/
def isLeap (year : Int) : Bool :=
  (year % 4 == 0 && year % 100 != 0) || (year % 400 == 0)

/-- Number of days of month `m` (1-based) in a year whose leap status is
`leap`. -/
def daysInMonthB (leap : Bool) (m : Nat) : Nat :=
  if m = 2 then (if leap then 29 else 28)
  else if m = 4 ∨ m = 6 ∨ m = 9 ∨ m = 11 then 30
  else 31

/-- Days in the months strictly before month `m + 1`, i.e. cumulative month
lengths. -/
def cumDays (leap : Bool) : Nat → Nat
  | 0 => 0
  | m + 1 => cumDays leap m + daysInMonthB leap (m + 1)

/-- Calendar date: year, 1-based month, 1-based day. -/
structure Date where
  year : Int
  month : Nat
  day : Nat
deriving DecidableEq, Repr

/-- Month/day validity with respect to a leap flag. -/
def validMD (leap : Bool) (m d : Nat) : Bool :=
  1 ≤ m && m ≤ 12 && 1 ≤ d && d ≤ daysInMonthB leap m

/-- A date is valid when its month and day are in calendar range for its
year. -/
def Date.valid (dt : Date) : Bool :=
  validMD (isLeap dt.year) dt.month dt.day

/-- Calendar Timestamp of the spec's data model: a calendar date plus the
nanosecond-of-day, precise enough to distinguish nanosecond-spaced
samples. -/
structure Timestamp where
  date : Date
  ns : Int
deriving DecidableEq, Repr

/-- Days before January 1 of year `y` counted from the proleptic Gregorian
epoch (ordinal 0 = Dec 31 of year 0), as in `datetime.date.toordinal`. -/
def daysBeforeYear (y : Int) : Int :=
  365 * (y - 1) + (y - 1) / 4 - (y - 1) / 100 + (y - 1) / 400

/-- Proleptic-Gregorian ordinal of a date (day count). -/
def toOrdinal (dt : Date) : Int :=
  daysBeforeYear dt.year + (cumDays (isLeap dt.year) (dt.month - 1) : Int) + dt.day

/-- Absolute position of a timestamp in nanoseconds. -/
def Timestamp.nanos (t : Timestamp) : Int :=
  toOrdinal t.date * 86400000000000 + t.ns

/-- Modelled from the spec: `getyrdoy(date) -> (year, day_of_year)` returns
the calendar year and the 1-based day-of-year (`pysat.utils.time.getyrdoy`
is not under `src/`). -/
def getyrdoy (dt : Date) : Int × Nat :=
  (dt.year, cumDays (isLeap dt.year) (dt.month - 1) + dt.day)

/-- Scan months starting at `m`, consuming `n` days of the year, to find the
month/day a given day-of-year falls in; `fuel` bounds the scan. -/
def monthOfDoy (leap : Bool) (m n : Nat) : Nat → Nat × Nat
  | 0 => (m, n)
  | fuel + 1 =>
    if n ≤ daysInMonthB leap m then (m, n)
    else monthOfDoy leap (m + 1) (n - daysInMonthB leap m) fuel

/-- Reconstruct the calendar date from a (year, day-of-year) pair. -/
def dateOfYrDoy (y : Int) (doy : Nat) : Date :=
  let p := monthOfDoy (isLeap y) 1 doy 11
  ⟨y, p.1, p.2⟩

/-- Numeric value of a digit string, represented as its list of decimal
digits. -/
def digitsVal (ds : List Nat) : Nat :=
  ds.foldl (fun acc d => 10 * acc + d) 0

/-- Year resolution of the spec's Flexible Date Parser: a 2-digit year
string resolves to `century + value`; otherwise the numeric value is used
as-is. -/
def resolveYear (year_str : List Nat) (century : Int) : Int :=
  if year_str.length = 2 then century + digitsVal year_str
  else digitsVal year_str

/-- The underlying date-construction primitive: builds a `Date` from
(year, month, day), failing with `InvalidDate` when month/day is out of
calendar range. -/
def mkDate (y : Int) (m d : Nat) : Except TimeError Date :=
  if validMD (isLeap y) m d then .ok ⟨y, m, d⟩ else .error .invalidDate

/-- Modelled from the spec: `parse_date(year_str, month_str, day_str,
century=2000)` accepts numeric strings (digit lists here), resolves a
2-digit year via the century anchor, uses a 4-digit year as-is, and
propagates `InvalidDate` from the date-construction primitive
(`pysat.utils.time.parse_date` is not under `src/`). -/
def parse_date (year_str month_str day_str : List Nat)
    (century : Int := 2000) : Except TimeError Date :=
  mkDate (resolveYear year_str century) (digitsVal month_str)
    (digitsVal day_str)

/-- Modelled from the spec: `create_datetime_index(year, month=None,
day=None, uts=None)` builds timestamps elementwise; `year` is required and
must be non-empty (`InvalidArgument` otherwise), `month` and `day` default
to 1 per element and `uts` (seconds-of-day, fractional allowed) to 0 per
element when omitted; output preserves input order
(`pysat.utils.time.create_datetime_index` is not under `src/`). -/
def create_datetime_index (year : Option (List Int) := none)
    (month : Option (List Nat) := none) (day : Option (List Nat) := none)
    (uts : Option (List ℚ) := none) : Except TimeError (List Timestamp) :=
  match year with
  | none => .error .invalidArgument
  | some ys =>
    if ys.isEmpty then .error .invalidArgument
    else
      .ok ((List.range ys.length).map (fun i =>
        { date := { year := ys.getD i 0,
                    month := (month.getD []).getD i 1,
                    day := (day.getD []).getD i 1 },
          ns := ⌊((uts.getD []).getD i 0) * 1000000000⌋ }))

/-- A dynamically-typed sequence element: either a timestamp-like value or
a plain integer (which lacks timestamp semantics). -/
inductive PyVal where
  | ts (t : Timestamp)
  | int (n : Int)
deriving DecidableEq, Repr

/-- Checks every element of the sequence is timestamp-like, extracting the
timestamps; `none` when some element lacks timestamp semantics. -/
def toTimestamps : List PyVal → Option (List Timestamp)
  | [] => some []
  | .ts t :: rest => (toTimestamps rest).map (t :: ·)
  | .int _ :: _ => none

/-- Consecutive differences of a sequence (`x[1:] - x[:-1]`). -/
def consecutiveDiffs (l : List Int) : List Int :=
  List.zipWith (fun a b => a - b) l.tail l

/-- Render a spacing (in nanoseconds) as a frequency code: a whole number
of seconds renders as `"{N}S"`, otherwise as `"{N}N"` at nanosecond
granularity. -/
def renderFreq (d : Int) : String :=
  if d % 1000000000 = 0 then toString (d / 1000000000) ++ "S"
  else toString d ++ "N"

/-- Modelled from the spec: `calc_freq(timestamp_sequence)` fails with
`InvalidArgument` on an empty sequence before any computation, fails with
`InvalidInputType` when elements are not timestamp-like, and otherwise
takes the smallest positive consecutive difference as the representative
spacing and renders it as a frequency code
(`pysat.utils.time.calc_freq` is not under `src/`). -/
def calc_freq (index : List PyVal) : Except TimeError String :=
  if index.isEmpty then .error .invalidArgument
  else
    match toTimestamps index with
    | none => .error .invalidInputType
    | some ts =>
      match ((consecutiveDiffs (ts.map Timestamp.nanos)).filter
          (fun d => 0 < d)).min? with
      | some d => .ok (renderFreq d)
      | none => .error .invalidArgument

/-- Frequency inference applied to the result of index synthesis, with
errors passed through. -/
def calcFreqOfIndex (e : Except TimeError (List Timestamp)) :
    Except TimeError String :=
  match e with
  | .ok l => calc_freq (l.map PyVal.ts)
  | .error err => .error err

/-- One day in nanoseconds, the step of the daily frequency. -/
def dayNs : Int := 86400000000000

/-- Inclusive evenly-stepped sequence of time positions (in nanoseconds)
from `start` to `stop` at step `step`: `start, start + step, ...` while not
exceeding `stop`; empty when `stop < start`. -/
def date_range (start stop step : Int) : List Int :=
  if 0 < step ∧ start ≤ stop then
    (List.range (((stop - start) / step).toNat + 1)).map
      (fun i => start + step * i)
  else []

/-- Argument of the Multi-Interval Range Builder: a single timestamp or a
sequence of timestamps (the two calling conventions of the spec). -/
inductive RangeArg where
  | single (t : Timestamp)
  | multi (ts : List Timestamp)
deriving DecidableEq, Repr

/-- Modelled from the spec: `create_date_range(start, stop, freq)` accepts
a single (start, stop) pair or parallel sequences of starts and stops; for
each pair it generates an inclusive evenly-stepped sequence and
concatenates the per-interval sequences in input order without
deduplicating boundary overlaps (`pysat.utils.time.create_date_range` is
not under `src/`; mismatched conventions are unspecified and yield the
empty sequence). -/
def create_date_range (start stop : RangeArg) (step : Int := dayNs) :
    List Int :=
  match start, stop with
  | .single a, .single b => date_range a.nanos b.nanos step
  | .multi ss, .multi ts =>
    ((ss.zip ts).map (fun p => date_range p.1.nanos p.2.nanos step)).flatten
  | _, _ => []

end PysatTime

namespace PysatTesting

open PysatTime

/-- Floating-point-style modulo with the sign of the (positive) divisor,
as `np.mod` on reals: `x - p * ⌊x / p⌋`. -/
def qmod (x p : ℚ) : ℚ := x - p * ⌊x / p⌋

/-- Truncation toward zero, as numpy `astype(int)`. -/
def ratTrunc (q : ℚ) : Int := if 0 ≤ q then ⌊q⌋ else ⌈q⌉

/-- Embedding of `generate_fake_data` from
`pysat/instruments/methods/testing.py`: cyclic mode maps each time step
`s` to `np.mod(np.mod(t0, period) + s, period) * ((data_range[1] -
data_range[0]) / period) + data_range[0]`; non-cyclic mode truncates
`(t0 + s) / period` to an integer. -/
def generate_fake_data (t0 : ℚ) (num_array : List ℚ) (period : ℚ := 5820)
    (data_range : List ℚ := [0, 24]) (cyclic : Bool := true) : List ℚ :=
  if cyclic then
    let uts_root := qmod t0 period
    num_array.map (fun s =>
      qmod (uts_root + s) period
        * ((data_range.getD 1 0 - data_range.getD 0 0) / period)
        + data_range.getD 0 0)
  else
    num_array.map (fun s => (ratTrunc ((t0 + s) / period) : ℚ))

end PysatTesting

namespace PysatTime

/-- For months 1..12 and days 1..31 (the range validity allows), the
month-scan inverts the day-of-year computation. -/
theorem monthOfDoy_core (b : Bool) : ∀ m, m < 13 → ∀ d, d < 32 →
    validMD b m d = true →
    monthOfDoy b 1 (cumDays b (m - 1) + d) 11 = (m, d) := by
  cases b <;> decide

/-- The day-of-year equals 366 exactly for Dec 31 in a leap year. -/
theorem doy366_core (b : Bool) : ∀ m, m < 13 → ∀ d, d < 32 →
    validMD b m d = true →
    (cumDays b (m - 1) + d = 366 ↔ (b = true ∧ m = 12 ∧ d = 31)) := by
  cases b <;> decide

/-- No month has more than 31 days. -/
theorem daysInMonthB_le31 (b : Bool) (m : Nat) : daysInMonthB b m ≤ 31 := by
  unfold daysInMonthB
  split
  · cases b <;> simp
  · split <;> simp

/-- A valid month/day pair is bounded by 12 and 31. -/
theorem validMD_bounds (b : Bool) (m d : Nat) (h : validMD b m d = true) :
    m < 13 ∧ d < 32 := by
  have hle := daysInMonthB_le31 b m
  simp only [validMD, Bool.and_eq_true, decide_eq_true_eq] at h
  omega

/-- Claim C2: for every valid calendar date, `getyrdoy` returns day-of-year
366 exactly when the date is Dec 31 of a leap year, the (year, day-of-year)
pair reconstructs to the original date, and January 1 of any year maps to
day-of-year 1. -/
theorem getyrdoy_spec (dt : Date) (h : dt.valid = true) :
    ((getyrdoy dt).2 = 366 ↔
      (isLeap dt.year = true ∧ dt.month = 12 ∧ dt.day = 31)) ∧
    dateOfYrDoy (getyrdoy dt).1 (getyrdoy dt).2 = dt ∧
    (dt.month = 1 ∧ dt.day = 1 → (getyrdoy dt).2 = 1) := by
  obtain ⟨y, m, d⟩ := dt
  have hv : validMD (isLeap y) m d = true := h
  obtain ⟨hm, hd⟩ := validMD_bounds _ _ _ hv
  refine ⟨doy366_core (isLeap y) m hm d hd hv, ?_, ?_⟩
  · have hms := monthOfDoy_core (isLeap y) m hm d hd hv
    simp only [getyrdoy, dateOfYrDoy, hms]
  · rintro ⟨rfl, rfl⟩
    simp [getyrdoy, cumDays]

/-- Claim C2 witness: Dec 31, 2008 is day 366 of a leap year and
round-trips; Jan 1, 2009 is day 1. -/
theorem getyrdoy_spec_witness :
    (getyrdoy ⟨2008, 12, 31⟩).2 = 366 ∧
    dateOfYrDoy (getyrdoy ⟨2008, 12, 31⟩).1 (getyrdoy ⟨2008, 12, 31⟩).2
      = ⟨2008, 12, 31⟩ ∧
    (getyrdoy ⟨2009, 1, 1⟩).2 = 1 := by
  have h1 := getyrdoy_spec ⟨2008, 12, 31⟩ (by decide)
  have h2 := getyrdoy_spec ⟨2009, 1, 1⟩ (by decide)
  exact ⟨h1.1.mpr (by decide), h1.2.1, h2.2.2 ⟨rfl, rfl⟩⟩

/-- Claim C4: `parse_date` resolves a 2-digit year string to century plus
its numeric value and uses a 4-digit year string as-is;
`parse_date('14','10','31')` is 2014-10-31, `parse_date('94','10','31',
century=1900)` is 1994-10-31, and `parse_date('1994','10','31')` is
1994-10-31. -/
theorem parse_date_years :
    (∀ (ys ms ds : List Nat) (c : Int), ys.length = 2 →
      parse_date ys ms ds c
        = mkDate (c + digitsVal ys) (digitsVal ms) (digitsVal ds)) ∧
    (∀ (ys ms ds : List Nat) (c : Int), ys.length = 4 →
      parse_date ys ms ds c
        = mkDate (digitsVal ys) (digitsVal ms) (digitsVal ds)) ∧
    parse_date [1, 4] [1, 0] [3, 1] = .ok ⟨2014, 10, 31⟩ ∧
    parse_date [9, 4] [1, 0] [3, 1] 1900 = .ok ⟨1994, 10, 31⟩ ∧
    parse_date [1, 9, 9, 4] [1, 0] [3, 1] = .ok ⟨1994, 10, 31⟩ := by
  refine ⟨?_, ?_, by rfl, by rfl, by rfl⟩
  · intro ys ms ds c h
    simp [parse_date, resolveYear, h]
  · intro ys ms ds c h
    simp [parse_date, resolveYear, h]

/-- Claim C4 witness: the 2-digit rule applied to year string "14" with the
default century. -/
theorem parse_date_years_witness :
    parse_date [1, 4] [1, 0] [3, 1] 2000
      = mkDate (2000 + digitsVal [1, 4]) (digitsVal [1, 0])
          (digitsVal [3, 1]) :=
  parse_date_years.1 [1, 4] [1, 0] [3, 1] 2000 rfl

/-- Claim C5: `parse_date` fails with `InvalidDate` whenever the month/day
pair is out of calendar range for the resolved year, never silently
truncates or wraps (a successful parse carries exactly the resolved year,
month and day values), and `parse_date('194','15','31')` raises
`InvalidDate`. -/
theorem parse_date_invalid :
    (∀ (ys ms ds : List Nat) (c : Int),
      validMD (isLeap (resolveYear ys c)) (digitsVal ms) (digitsVal ds)
        = false →
      parse_date ys ms ds c = .error .invalidDate) ∧
    (∀ (ys ms ds : List Nat) (c : Int) (dt : Date),
      parse_date ys ms ds c = .ok dt →
      dt = ⟨resolveYear ys c, digitsVal ms, digitsVal ds⟩) ∧
    parse_date [1, 9, 4] [1, 5] [3, 1] = .error .invalidDate := by
  refine ⟨?_, ?_, by rfl⟩
  · intro ys ms ds c h
    simp [parse_date, mkDate, h]
  · intro ys ms ds c dt h
    simp only [parse_date, mkDate] at h
    split at h
    · exact (Except.ok.injEq _ _ ▸ h).symm
    · exact absurd h (by simp)

/-- Claim C5 witness: month 15 is rejected with `InvalidDate`. -/
theorem parse_date_invalid_witness :
    parse_date [1, 9, 4] [1, 5] [3, 1] 2000 = .error .invalidDate :=
  parse_date_invalid.1 [1, 9, 4] [1, 5] [3, 1] 2000 (by rfl)

/-- Mapping an index function over the positions of a list is mapping over
the list. -/
theorem range_map_getD {α β : Type} (l : List α) (d : α) (f : α → β) :
    (List.range l.length).map (fun i => f (l.getD i d)) = l.map f := by
  induction l with
  | nil => rfl
  | cons a t ih =>
    rw [List.length_cons, List.range_succ_eq_map, List.map_cons,
      List.map_cons, List.map_map]
    exact congrArg (f a :: ·) ih

/-- Claim C6: `create_datetime_index` fails with `InvalidArgument` whenever
the required year argument is omitted or empty; in particular the call with
no arguments (all defaults) fails with `InvalidArgument`. -/
theorem create_datetime_index_requires_year :
    create_datetime_index none none none none = .error .invalidArgument ∧
    (∀ month day uts,
      create_datetime_index none month day uts
        = .error .invalidArgument) ∧
    (∀ month day uts,
      create_datetime_index (some []) month day uts
        = .error .invalidArgument) :=
  ⟨rfl, fun _ _ _ => rfl, fun _ _ _ => rfl⟩

/-- Claim C7: for every non-empty year array with month, day and uts
omitted, `create_datetime_index` defaults each element to month 1, day 1
and 0 seconds-of-day, preserving input length and order. -/
theorem create_datetime_index_defaults (ys : List Int) (h : ys ≠ []) :
    create_datetime_index (some ys) none none none =
      .ok (ys.map (fun y => ⟨⟨y, 1, 1⟩, 0⟩)) := by
  simp only [create_datetime_index, List.isEmpty_eq_false.mpr h,
    Bool.false_eq_true, if_false, Option.getD_none, List.getD_nil,
    zero_mul, Int.floor_zero]
  exact congrArg Except.ok
    (range_map_getD ys 0 (fun y => (⟨⟨y, 1, 1⟩, 0⟩ : Timestamp)))

/-- Claim C7 witness: `create_datetime_index(year=[2012]*4)` yields exactly
4 timestamps, all equal to 2012-01-01 00:00:00. -/
theorem create_datetime_index_defaults_witness :
    create_datetime_index (some [2012, 2012, 2012, 2012]) none none none =
      .ok [⟨⟨2012, 1, 1⟩, 0⟩, ⟨⟨2012, 1, 1⟩, 0⟩, ⟨⟨2012, 1, 1⟩, 0⟩,
           ⟨⟨2012, 1, 1⟩, 0⟩] := by
  have h := create_datetime_index_defaults [2012, 2012, 2012, 2012]
    (by simp)
  simpa using h

/-- A sequence of timestamp-like elements converts to its timestamps. -/
theorem toTimestamps_map_ts (ts : List Timestamp) :
    toTimestamps (ts.map PyVal.ts) = some ts := by
  induction ts with
  | nil => rfl
  | cons a t ih => simp [toTimestamps, ih]

/-- A sequence containing a plain integer fails timestamp extraction. -/
theorem toTimestamps_none {vs : List PyVal} (n : Int)
    (hmem : PyVal.int n ∈ vs) : toTimestamps vs = none := by
  induction vs with
  | nil => cases hmem
  | cons v t ih =>
    cases v with
    | int m => rfl
    | ts a =>
      have ht : PyVal.int n ∈ t := by
        cases hmem with
        | tail _ h => exact h
      simp [toTimestamps, ih ht]

/-- Claim C3: `calc_freq` fails with `InvalidArgument` on the empty
sequence, and with `InvalidInputType` whenever an element of the sequence
is a plain integer rather than a timestamp; in particular the list
`[1, 2, 3, 4]` of integers fails with `InvalidInputType`. -/
theorem calc_freq_errors :
    calc_freq [] = .error .invalidArgument ∧
    (∀ (vs : List PyVal) (n : Int), vs ≠ [] → PyVal.int n ∈ vs →
      calc_freq vs = .error .invalidInputType) ∧
    calc_freq [.int 1, .int 2, .int 3, .int 4]
      = .error .invalidInputType := by
  refine ⟨rfl, ?_, rfl⟩
  intro vs n hne hmem
  simp [calc_freq, List.isEmpty_eq_false.mpr hne,
    toTimestamps_none n hmem]

/-- Claim C3 witness: the integer list `[1, 2, 3, 4]` fails with
`InvalidInputType` via the general statement. -/
theorem calc_freq_errors_witness :
    calc_freq [.int 1, .int 2, .int 3, .int 4]
      = .error .invalidInputType :=
  calc_freq_errors.2.1 [.int 1, .int 2, .int 3, .int 4] 1 (by simp)
    (by simp)

/-- Claim C1: for every timestamp sequence with at least two elements,
`calc_freq` computes the consecutive differences, selects the smallest
positive difference as the representative spacing and renders it, a whole
number of seconds rendering as `"{N}S"` and otherwise as `"{N}N"` in
nanoseconds; a sequence spaced 1 second apart yields code `"1S"` and a
sequence spaced 0.01 seconds apart yields code `"10000000N"`. -/
theorem calc_freq_spec :
    (∀ ts : List Timestamp, 2 ≤ ts.length →
      calc_freq (ts.map PyVal.ts) =
        match ((consecutiveDiffs (ts.map Timestamp.nanos)).filter
            (fun d => 0 < d)).min? with
        | some d => .ok (renderFreq d)
        | none => .error .invalidArgument) ∧
    (∀ d : Int, d % 1000000000 = 0 →
      renderFreq d = toString (d / 1000000000) ++ "S") ∧
    (∀ d : Int, ¬d % 1000000000 = 0 →
      renderFreq d = toString d ++ "N") ∧
    calcFreqOfIndex (create_datetime_index (some [2001, 2001, 2001, 2001])
      (some [1, 1, 1, 1]) none (some [0, 1, 2, 3])) = .ok "1S" ∧
    calcFreqOfIndex (create_datetime_index (some [2001, 2001, 2001, 2001])
        (some [1, 1, 1, 1]) none (some [0, 1/100, 2/100, 3/100]))
      = .ok "10000000N" := by
  have hsec : create_datetime_index (some [2001, 2001, 2001, 2001])
      (some [1, 1, 1, 1]) none (some [0, 1, 2, 3]) =
      .ok [⟨⟨2001, 1, 1⟩, 0⟩, ⟨⟨2001, 1, 1⟩, 1000000000⟩,
           ⟨⟨2001, 1, 1⟩, 2000000000⟩, ⟨⟨2001, 1, 1⟩, 3000000000⟩] := by
    norm_num [create_datetime_index, List.range_succ]
  have hns : create_datetime_index (some [2001, 2001, 2001, 2001])
      (some [1, 1, 1, 1]) none (some [0, 1/100, 2/100, 3/100]) =
      .ok [⟨⟨2001, 1, 1⟩, 0⟩, ⟨⟨2001, 1, 1⟩, 10000000⟩,
           ⟨⟨2001, 1, 1⟩, 20000000⟩, ⟨⟨2001, 1, 1⟩, 30000000⟩] := by
    norm_num [create_datetime_index, List.range_succ]
  refine ⟨?_, ?_, ?_, ?_, ?_⟩
  · intro ts hlen
    have hne : ts.map PyVal.ts ≠ [] := by
      cases ts
      · simp at hlen
      · simp
    simp only [calc_freq, List.isEmpty_eq_false.mpr hne,
      Bool.false_eq_true, if_false, toTimestamps_map_ts]
  · intro d h
    simp [renderFreq, h]
  · intro d h
    simp [renderFreq, h]
  · rw [hsec]
    rfl
  · rw [hns]
    rfl

/-- Claim C1 witness: a two-element sequence spaced exactly one second
apart renders as `"1S"` through the general statement. -/
theorem calc_freq_spec_witness :
    calc_freq ([⟨⟨2001, 1, 1⟩, 0⟩,
      ⟨⟨2001, 1, 1⟩, 1000000000⟩].map PyVal.ts) = .ok "1S" :=
  (calc_freq_spec.1 [⟨⟨2001, 1, 1⟩, 0⟩, ⟨⟨2001, 1, 1⟩, 1000000000⟩]
    (by simp)).trans (by rfl)

/-- Claim C8: `create_date_range` concatenates the per-interval inclusive
evenly-stepped sequences in input order without deduplicating boundary
overlaps; at daily frequency the interval 2012-02-28 to 2012-03-01 yields
exactly the 3 dates 2012-02-28, 2012-02-29 and 2012-03-01, and the two
intervals (2012-02-28 to 2012-03-01, 2013-02-28 to 2013-03-01) yield 5
dates, the first 2012-02-28 and the last 2013-03-01. -/
theorem create_date_range_spec :
    (∀ (ss ts : List Timestamp) (step : Int),
      create_date_range (.multi ss) (.multi ts) step =
        ((ss.zip ts).map
          (fun p => date_range p.1.nanos p.2.nanos step)).flatten) ∧
    create_date_range (.single ⟨⟨2012, 2, 28⟩, 0⟩)
        (.single ⟨⟨2012, 3, 1⟩, 0⟩) dayNs
      = [Timestamp.nanos ⟨⟨2012, 2, 28⟩, 0⟩,
         Timestamp.nanos ⟨⟨2012, 2, 29⟩, 0⟩,
         Timestamp.nanos ⟨⟨2012, 3, 1⟩, 0⟩] ∧
    create_date_range (.multi [⟨⟨2012, 2, 28⟩, 0⟩, ⟨⟨2013, 2, 28⟩, 0⟩])
        (.multi [⟨⟨2012, 3, 1⟩, 0⟩, ⟨⟨2013, 3, 1⟩, 0⟩]) dayNs
      = [Timestamp.nanos ⟨⟨2012, 2, 28⟩, 0⟩,
         Timestamp.nanos ⟨⟨2012, 2, 29⟩, 0⟩,
         Timestamp.nanos ⟨⟨2012, 3, 1⟩, 0⟩,
         Timestamp.nanos ⟨⟨2013, 2, 28⟩, 0⟩,
         Timestamp.nanos ⟨⟨2013, 3, 1⟩, 0⟩] :=
  ⟨fun _ _ _ => rfl, by rfl, by rfl⟩

/-- Claim C9: for every start, stop and frequency, the single-pair calling
convention of `create_date_range` produces a result identical to the
multi-pair convention applied to the one-element sequences. -/
theorem create_date_range_single_multi (a b : Timestamp) (step : Int) :
    create_date_range (.single a) (.single b) step =
      create_date_range (.multi [a]) (.multi [b]) step := by
  simp [create_date_range]

end PysatTime

namespace PysatTesting

/-- For a positive modulus, `qmod` is nonnegative. -/
theorem qmod_nonneg {x p : ℚ} (hp : 0 < p) : 0 ≤ qmod x p := by
  have h := Int.sub_floor_div_mul_nonneg x hp
  unfold qmod
  linarith [h]

/-- For a positive modulus, `qmod` is below the modulus. -/
theorem qmod_lt {x p : ℚ} (hp : 0 < p) : qmod x p < p := by
  have h := Int.sub_floor_div_mul_lt x hp
  unfold qmod
  linarith [h]

/-- Claim C10 counterexample: for the two-element data_range `[0, 0]` the
cyclic output value 0 does not lie in the (empty) half-open interval
[0, 0), so the claim fails as stated at `t0 = 0`, steps `[0]`,
`period = 1`. -/
theorem generate_fake_data_range_cex :
    ¬(∀ v ∈ generate_fake_data 0 [0] 1 [0, 0] true,
        (0 : ℚ) ≤ v ∧ v < 0) := by
  intro h
  have hl : generate_fake_data 0 [0] 1 [0, 0] true = [0] := by
    norm_num [generate_fake_data, qmod]
  rw [hl] at h
  exact absurd (h 0 (by simp)).2 (lt_irrefl 0)

/-- Claim C10 (amended): for every start time, step list, positive integer
period and two-element data_range whose first element is below its second,
cyclic `generate_fake_data` maps each step `s` to `data_range[0]` plus
`((t0 mod period) + s) mod period` scaled by
`(data_range[1] - data_range[0]) / period`, and every output lies in the
half-open interval `[data_range[0], data_range[1])`. -/
theorem generate_fake_data_cyclic_range (t0 : ℚ) (steps : List ℚ)
    (period : ℤ) (r0 r1 : ℚ) (hp : 0 < period) (hr : r0 < r1) :
    generate_fake_data t0 steps (period : ℚ) [r0, r1] true =
      steps.map (fun s =>
        qmod (qmod t0 (period : ℚ) + s) (period : ℚ)
          * ((r1 - r0) / (period : ℚ)) + r0) ∧
    ∀ v ∈ generate_fake_data t0 steps (period : ℚ) [r0, r1] true,
      r0 ≤ v ∧ v < r1 := by
  have hpq : (0 : ℚ) < (period : ℚ) := by exact_mod_cast hp
  constructor
  · rfl
  · intro v hv
    simp only [generate_fake_data, if_pos, List.mem_map] at hv
    obtain ⟨s, _, rfl⟩ := hv
    simp only [List.getD_cons_succ, List.getD_cons_zero]
    have h0 := qmod_nonneg (x := qmod t0 (period : ℚ) + s) hpq
    have h1 := qmod_lt (x := qmod t0 (period : ℚ) + s) hpq
    have hscale : 0 ≤ (r1 - r0) / (period : ℚ) :=
      div_nonneg (by linarith) hpq.le
    constructor
    · have := mul_nonneg h0 hscale
      linarith
    · have hlt : qmod (qmod t0 (period : ℚ) + s) (period : ℚ)
          * ((r1 - r0) / (period : ℚ))
          < (period : ℚ) * ((r1 - r0) / (period : ℚ)) :=
        mul_lt_mul_of_pos_right h1 (div_pos (by linarith) hpq)
      have hps : (period : ℚ) * ((r1 - r0) / (period : ℚ)) = r1 - r0 := by
        field_simp
      linarith

/-- Claim C10 witness: at `t0 = 3`, steps `[0]`, period 2 and data_range
`[0, 24]` the single output 12 lies in [0, 24). -/
theorem generate_fake_data_cyclic_range_witness :
    (0 : ℚ) ≤ 12 ∧ (12 : ℚ) < 24 := by
  have h := (generate_fake_data_cyclic_range 3 [0] 2 0 24 (by norm_num)
    (by norm_num)).2
  have hl : generate_fake_data 3 [0] ((2 : ℤ) : ℚ) [0, 24] true
      = [12] := by
    norm_num [generate_fake_data, qmod]
  rw [hl] at h
  exact h 12 (by simp)

end PysatTesting
